import Mathlib

/-!
# Typed buffers of the TensorRT-LLM runtime (`iBuffer.h`)

A shallow embedding of `cpp/include/tensorrt_llm/runtime/iBuffer.h`:
the type tag `BufferDataType`, the type registries `TRTDataType` and `CppDataType`,
the non-virtual members and static factories of `IBuffer`, the typed accessors
`bufferCast`, and the iteration window `BufferRange`.

Conventions.
* `std::size_t` is a 64-bit unsigned integer: a natural number below `2^64`,
  every arithmetic operation on it being reduced modulo `2^64` explicitly.
* Addresses are 64-bit: a natural number below `2^64`, a pointer sum being
  reduced modulo `2^64` explicitly. A `void*` is `none` for `nullptr` and
  `some a` for the byte address `a`.
* The preprocessor conditionals of the header are kept as branches on a
  `BuildConfig` value.
* Members the header declares without defining (`slice` with a size, `wrap` with
  a capacity, `resize`) are the fields of a `DeclaredMembers` value.
-/

namespace tensorrt_llm.runtime

/-! ## Build configuration -/

/-- The preprocessor symbols the header tests. `NV_TENSORRT_MAJOR` comes from the
TensorRT headers (`none` when it is not defined), `ENABLE_BF16` and `ENABLE_FP8`
from the build system. -/
structure BuildConfig where
  NV_TENSORRT_MAJOR : Option Nat
  ENABLE_BF16 : Bool
  ENABLE_FP8 : Bool
  deriving DecidableEq, Repr

/-- The condition `defined(NV_TENSORRT_MAJOR) && NV_TENSORRT_MAJOR >= 9`. -/
def BuildConfig.trtMajorAtLeast9 (cfg : BuildConfig) : Bool :=
  match cfg.NV_TENSORRT_MAJOR with
  | some n => decide (9 ≤ n)
  | none => false

/-- A build against TensorRT 9 with bfloat16 and fp8 enabled: the build whose
identifier catalogue (int64, bfloat16, fp8 included) the specification lists. -/
def fullBuild : BuildConfig :=
  { NV_TENSORRT_MAJOR := some 9, ENABLE_BF16 := true, ENABLE_FP8 := true }

/-- A build against TensorRT 8 without bfloat16 and fp8. -/
def legacyBuild : BuildConfig :=
  { NV_TENSORRT_MAJOR := some 8, ENABLE_BF16 := false, ENABLE_FP8 := false }

/-! ## Machine integers and pointers -/

/-- Number of values of `std::size_t` (64-bit). -/
def SIZE_T_MOD : Nat := 2 ^ 64

instance SIZE_T_MOD_neZero : NeZero SIZE_T_MOD := ⟨by decide⟩

/-- A 64-bit byte address. -/
abbrev Address := Fin SIZE_T_MOD

/-- A `void*` or `void const*` value: `none` is `nullptr`, `some a` is the byte
address `a`. -/
abbrev VoidPtr := Option Address

/-- The expression `p + offset` for a byte pointer `p` (`std::uint8_t*`) at a given
address and a `std::size_t` offset: the address `offset` bytes further, pointers
being 64 bits wide. -/
def Address.addBytes (p : Address) (offset : Nat) : Address :=
  ⟨(p.val + offset) % SIZE_T_MOD, Nat.mod_lt _ (by decide)⟩

/-! ## Enumerations -/

/-- The enumeration `MemoryType`. -/
inductive MemoryType
  | kGPU
  | kCPU
  | kPINNED
  deriving DecidableEq, Repr

/-- Modelled from the spec: the catalogue of element type identifiers
`nvinfer1::DataType` is declared in the TensorRT header `NvInferRuntime.h`, which
is not part of the source tree. The constructors are the enumerators this header
names; `kOTHER code` stands for any value of the enumeration that the header does
not name (for instance an enumerator added by a later TensorRT), `code` only
telling such values apart. -/
inductive DataType
  | kFLOAT
  | kHALF
  | kINT8
  | kINT32
  | kBOOL
  | kUINT8
  | kFP8
  | kBF16
  | kINT64
  | kOTHER (code : Nat)
  deriving DecidableEq, Repr

/-! ## `BufferDataType` -/

/-- The class `BufferDataType`: a `nvinfer1::DataType` with an unsigned flag and a
pointer flag. The constructor defaults are `_unsigned = false`, `pointer = false`. -/
structure BufferDataType where
  mDataType : DataType
  mUnsigned : Bool
  mPointer : Bool
  deriving DecidableEq, Repr

namespace BufferDataType

/-- The implicit converting constructor `BufferDataType(dataType)` with both
defaulted flags. -/
def ofDataType (dataType : DataType) : BufferDataType :=
  { mDataType := dataType, mUnsigned := false, mPointer := false }

/-- The static member `kTrtPointerType`. -/
def kTrtPointerType (cfg : BuildConfig) : DataType :=
  if cfg.trtMajorAtLeast9 then DataType.kINT64 else DataType.kINT32

/-- The conversion `operator nvinfer1::DataType()`. -/
def toDataType (cfg : BuildConfig) (t : BufferDataType) : DataType :=
  if cfg.trtMajorAtLeast9 then
    (if t.mPointer then kTrtPointerType cfg else t.mDataType)
  else
    t.mDataType

/-- The member `getDataType()`. -/
def getDataType (t : BufferDataType) : DataType := t.mDataType

/-- The member `isPointer()`. -/
def isPointer (t : BufferDataType) : Bool := t.mPointer

/-- The member `isUnsigned()`. -/
def isUnsigned (t : BufferDataType) : Bool :=
  match t.mDataType with
  | DataType.kBOOL => true
  | DataType.kUINT8 => true
  | _ => t.mUnsigned

/-- The member `getSize()`: a switch over the converted identifier, `return 0`
after the switch. The cases for `kINT64` and `kBF16` exist only when
`NV_TENSORRT_MAJOR >= 9`. -/
def getSize (cfg : BuildConfig) (t : BufferDataType) : Nat :=
  match toDataType cfg t with
  | DataType.kINT64 => if cfg.trtMajorAtLeast9 then 8 else 0
  | DataType.kINT32 => 4
  | DataType.kFLOAT => 4
  | DataType.kBF16 => if cfg.trtMajorAtLeast9 then 2 else 0
  | DataType.kHALF => 2
  | DataType.kBOOL => 1
  | DataType.kUINT8 => 1
  | DataType.kINT8 => 1
  | DataType.kFP8 => 1
  | DataType.kOTHER _ => 0

end BufferDataType

/-! ## The registry `TRTDataType` -/

/-- Host (C++) element types, cv-qualifiers removed. `other n` is any type for
which the header gives no `TRTDataType` specialisation (`double`, `std::int16_t`,
...). -/
inductive HostType
  | float
  | half
  | int8_t
  | int32_t
  | uint32_t
  | int64_t
  | uint64_t
  | bool
  | uint8_t
  | nv_bfloat16
  | nv_fp8_e4m3
  | void
  | other (n : Nat)
  | ptr (T : HostType)
  deriving DecidableEq, Repr

/-- The static member `value` of a `TRTDataType` specialisation is declared
`auto`: it is a plain `nvinfer1::DataType` in some specialisations and a
`BufferDataType` in the others. -/
inductive TRTValue
  | dataType (d : DataType)
  | bufferDataType (t : BufferDataType)
  deriving DecidableEq, Repr

/-- The expression `BufferDataType{value}`: the converting constructor for a plain
identifier, a copy for a tag. -/
def TRTValue.toBufferDataType : TRTValue → BufferDataType
  | TRTValue.dataType d => BufferDataType.ofDataType d
  | TRTValue.bufferDataType t => t

/-- The value converted to `nvinfer1::DataType`, as happens when it is compared
with, or passed as, a `nvinfer1::DataType`: the identity for a plain identifier,
`operator nvinfer1::DataType()` for a tag. -/
def TRTValue.toDataType (cfg : BuildConfig) : TRTValue → DataType
  | TRTValue.dataType d => d
  | TRTValue.bufferDataType t => t.toDataType cfg

/-- The template `TRTDataType<T>`: `some value` when a specialisation with a member
`value` is selected for `T`, `none` when only the empty primary template matches
(any use of `TRTDataType<T>::value` is then ill-formed). The explicit
specialisation for `void*` takes precedence over the one for `T*`. -/
def TRTDataType (cfg : BuildConfig) : HostType → Option TRTValue
  | HostType.float => some (TRTValue.dataType DataType.kFLOAT)
  | HostType.half => some (TRTValue.dataType DataType.kHALF)
  | HostType.int8_t => some (TRTValue.dataType DataType.kINT8)
  | HostType.int32_t => some (TRTValue.dataType DataType.kINT32)
  | HostType.uint32_t =>
      some (TRTValue.bufferDataType
        { mDataType := DataType.kINT32, mUnsigned := true, mPointer := false })
  | HostType.int64_t =>
      if cfg.trtMajorAtLeast9 then some (TRTValue.dataType DataType.kINT64) else none
  | HostType.uint64_t =>
      if cfg.trtMajorAtLeast9 then
        some (TRTValue.bufferDataType
          { mDataType := DataType.kINT64, mUnsigned := true, mPointer := false })
      else none
  | HostType.bool => some (TRTValue.dataType DataType.kBOOL)
  | HostType.uint8_t => some (TRTValue.dataType DataType.kUINT8)
  | HostType.nv_bfloat16 =>
      if cfg.ENABLE_BF16 then some (TRTValue.dataType DataType.kBF16) else none
  | HostType.nv_fp8_e4m3 =>
      if cfg.ENABLE_FP8 then some (TRTValue.dataType DataType.kFP8) else none
  | HostType.void => none
  | HostType.other _ => none
  | HostType.ptr HostType.void =>
      some (TRTValue.dataType (BufferDataType.kTrtPointerType cfg))
  | HostType.ptr T =>
      match TRTDataType cfg T with
      | none => none
      | some v =>
          let kUnderlyingType := v.toBufferDataType
          some (TRTValue.bufferDataType
            { mDataType := kUnderlyingType.getDataType
              mUnsigned := kUnderlyingType.isUnsigned
              mPointer := true })

/-! ## `IBuffer` -/

/-- The abstract class `IBuffer`. Its pure virtual accessors are implemented by
classes outside this header, so what they return is taken as given, one field
each: `data()`, `getSize()`, `getCapacity()`, `getDataType()` and
`getMemoryType()`. The two overloads `data()` and `data() const` differ only in
the constness of the result and both return the buffer's one raw storage pointer,
the field `data`. -/
structure IBuffer where
  data : VoidPtr
  getSize : Nat
  getCapacity : Nat
  getDataType : DataType
  getMemoryType : MemoryType
  deriving DecidableEq, Repr

namespace IBuffer

/-- The protected member `toBytes(size)`: `size * BufferDataType(getDataType()).getSize()`
in `std::size_t` arithmetic. -/
def toBytes (cfg : BuildConfig) (b : IBuffer) (size : Nat) : Nat :=
  (size * (BufferDataType.ofDataType b.getDataType).getSize cfg) % SIZE_T_MOD

/-- The member `data(std::size_t index)`, non-const overload. -/
def dataAt (cfg : BuildConfig) (b : IBuffer) (index : Nat) : VoidPtr :=
  match b.data with
  | some dataPtr => some (dataPtr.addBytes (b.toBytes cfg index))
  | none => none

/-- The member `data(std::size_t index) const`. -/
def dataAtConst (cfg : BuildConfig) (b : IBuffer) (index : Nat) : VoidPtr :=
  match b.data with
  | some dataPtr => some (dataPtr.addBytes (b.toBytes cfg index))
  | none => none

/-- The member `getSizeInBytes()`. -/
def getSizeInBytes (cfg : BuildConfig) (b : IBuffer) : Nat :=
  b.toBytes cfg b.getSize

end IBuffer

/-! ## `bufferCast` -/

/-- How an instantiation of a typed accessor can fail: `ill_formed` when it names
`TRTDataType<T>::value` for a `T` without one (the program is rejected by the
compiler), `bad_cast` when it throws `std::bad_cast`. -/
inductive CastFailure
  | ill_formed
  | bad_cast
  deriving DecidableEq, Repr

/-- The function template `bufferCast<T>(IBuffer const&)`. -/
def bufferCastConst (cfg : BuildConfig) (T : HostType) (buffer : IBuffer) :
    Except CastFailure VoidPtr :=
  match TRTDataType cfg T with
  | none => Except.error CastFailure.ill_formed
  | some value =>
      if value.toDataType cfg ≠ buffer.getDataType then
        Except.error CastFailure.bad_cast
      else
        Except.ok buffer.data

/-- The function template `bufferCast<T>(IBuffer&)`: the comparison is commented
out in the source, only the `static_cast` of `buffer.data()` remains. -/
def bufferCast (_cfg : BuildConfig) (_T : HostType) (buffer : IBuffer) :
    Except CastFailure VoidPtr :=
  Except.ok buffer.data

/-! ## The registry `CppDataType` -/

/-- The template `CppDataType<kDataType, kIsUnsigned, kIsPointer>` (both flags
default to `false`): `some type` when a specialisation with a member `type` is
selected, `none` when only the empty primary template matches. The partial
specialisation for `kIsPointer = true` is the pointer to the type of the same
identifier and flag with `kIsPointer = false`. -/
def CppDataType (cfg : BuildConfig) (kDataType : DataType) (kIsUnsigned kIsPointer : Bool) :
    Option HostType :=
  let nonPointer : Option HostType :=
    match kDataType, kIsUnsigned with
    | DataType.kFLOAT, false => some HostType.float
    | DataType.kHALF, false => some HostType.half
    | DataType.kINT8, false => some HostType.int8_t
    | DataType.kINT32, false => some HostType.int32_t
    | DataType.kINT64, false =>
        if cfg.trtMajorAtLeast9 then some HostType.int64_t else none
    | DataType.kINT32, true => some HostType.uint32_t
    | DataType.kINT64, true =>
        if cfg.trtMajorAtLeast9 then some HostType.uint64_t else none
    | DataType.kBOOL, _ => some HostType.bool
    | DataType.kUINT8, _ => some HostType.uint8_t
    | DataType.kBF16, false => if cfg.ENABLE_BF16 then some HostType.nv_bfloat16 else none
    | DataType.kFP8, false => if cfg.ENABLE_FP8 then some HostType.nv_fp8_e4m3 else none
    | _, _ => none
  if kIsPointer then nonPointer.map HostType.ptr else nonPointer

/-! ## The static factories of `IBuffer` -/

/-- Subtraction of two `std::size_t` values: the difference reduced modulo `2^64`. -/
def sizeSub (a b : Nat) : Nat :=
  (((a : Int) - (b : Int)) % (SIZE_T_MOD : Int)).toNat

/-- The members of `IBuffer` that the header only declares, their definitions being
in other files: the static `slice(buffer, offset, size)`, the static
`wrap(data, type, size, capacity)`, and the pure virtual `resize(newSize)`, which
here yields the buffer as resized. They are taken as given; a call returns
(`Except.ok`) or throws (`Except.error`). -/
structure DeclaredMembers (ε : Type) where
  slice : IBuffer → Nat → Nat → Except ε IBuffer
  wrap : VoidPtr → DataType → Nat → Nat → Except ε IBuffer
  resize : IBuffer → Nat → Except ε IBuffer

/-- The failure of a slice, view or resize that asks for more than the buffer
holds. -/
inductive BufferError
  | out_of_range
  deriving DecidableEq, Repr

/-- Modelled from the spec: the definitions of `slice(buffer, offset, size)`,
`wrap(pointer, type, size, capacity)` and of `resize` for views and non-owning
buffers are not part of the source tree. Following section 4.3 of the
specification: a slice fails if `offset + size > buffer.capacity()` and otherwise
is a view whose `data(0)` is `buffer.data(offset)`, of the requested size, which
may grow up to `buffer.capacity() - offset`; a wrap is a buffer over the given
memory with the given type, size and capacity, its memory type being what the
platform reports for the pointer (`classify`); a resize within the capacity only
updates the size, one beyond it fails. -/
def specMembers (cfg : BuildConfig) (classify : VoidPtr → MemoryType) :
    DeclaredMembers BufferError :=
  { slice := fun buffer offset size =>
      if offset + size > buffer.getCapacity then
        Except.error BufferError.out_of_range
      else
        Except.ok
          { data := buffer.dataAt cfg offset
            getSize := size
            getCapacity := buffer.getCapacity - offset
            getDataType := buffer.getDataType
            getMemoryType := buffer.getMemoryType }
    wrap := fun data type size capacity =>
      Except.ok
        { data := data
          getSize := size
          getCapacity := capacity
          getDataType := type
          getMemoryType := classify data }
    resize := fun buffer newSize =>
      if newSize ≤ buffer.getCapacity then
        Except.ok { buffer with getSize := newSize }
      else
        Except.error BufferError.out_of_range }

/-- A `std::vector<T>` as `wrap` sees it: `data()`, `size()` and `capacity()`, the
size never exceeding the capacity. -/
structure StdVector where
  data : VoidPtr
  size : Nat
  capacity : Nat
  size_le_capacity : size ≤ capacity

namespace IBuffer

variable {ε : Type}

/-- The static member `slice(SharedPtr buffer, std::size_t offset)`. -/
def slice (impl : DeclaredMembers ε) (buffer : IBuffer) (offset : Nat) : Except ε IBuffer :=
  let size := sizeSub buffer.getSize offset
  impl.slice buffer offset size

/-- The static member `view(SharedPtr tensor)`. -/
def view (impl : DeclaredMembers ε) (tensor : IBuffer) : Except ε IBuffer :=
  let offset := 0
  IBuffer.slice impl tensor offset

/-- The static member `view(SharedPtr tensor, std::size_t size)`: the view, then
`v->resize(size)`, then `return v`. -/
def viewResized (impl : DeclaredMembers ε) (tensor : IBuffer) (size : Nat) :
    Except ε IBuffer :=
  match IBuffer.view impl tensor with
  | Except.error e => Except.error e
  | Except.ok v => impl.resize v size

/-- The static member `wrap(void* data, DataType type, std::size_t size)`. -/
def wrapSize (impl : DeclaredMembers ε) (data : VoidPtr) (type : DataType) (size : Nat) :
    Except ε IBuffer :=
  impl.wrap data type size size

/-- The static member template `wrap<T>(T* data, std::size_t size, std::size_t capacity)`:
it calls `wrap(data, TRTDataType<T>::value, size, capacity)`, the value being
converted to `nvinfer1::DataType`. The result is `none` when `TRTDataType<T>` has
no `value` (the instantiation is ill-formed). -/
def wrapTyped (impl : DeclaredMembers ε) (cfg : BuildConfig) (T : HostType) (data : VoidPtr)
    (size capacity : Nat) : Option (Except ε IBuffer) :=
  match TRTDataType cfg T with
  | none => none
  | some value => some (impl.wrap data (value.toDataType cfg) size capacity)

/-- The static member template `wrap<T>(T* data, std::size_t size)`. Its body is
`return wrap<T>(data, size);`: with the explicit template argument and two
arguments the only viable overload is this template itself, so the call is a
call of the same function with the same arguments. `fuel` bounds the number of
nested calls; the result is `none` when no call has returned within them. -/
def wrapTypedSize (impl : DeclaredMembers ε) (cfg : BuildConfig) (T : HostType) :
    Nat → VoidPtr → Nat → Option (Except ε IBuffer)
  | 0, _, _ => none
  | fuel + 1, data, size => wrapTypedSize impl cfg T fuel data size

/-- The static member template `wrap<T>(std::vector<T>& v)`. -/
def wrapVector (impl : DeclaredMembers ε) (cfg : BuildConfig) (T : HostType) (v : StdVector) :
    Option (Except ε IBuffer) :=
  wrapTyped impl cfg T v.data v.size v.capacity

end IBuffer

/-! ## `BufferRange` -/

/-- Modelled from the spec: `sizeof(T)` is fixed by the platform, not by the
header. The sizes are the byte widths section 4.1 of the specification gives for
the identifiers the host types map to: 8 for the 64-bit integers and for pointers,
4 for the 32-bit integers and `float`, 2 for `half` and `__nv_bfloat16`, 1 for the
8-bit integers, `bool` and `__nv_fp8_e4m3`. `void` has no size (`none`); the size
of a type the header does not name is supplied by `sizeofOther`. -/
def HostType.sizeOf (sizeofOther : Nat → Nat) : HostType → Option Nat
  | HostType.float => some 4
  | HostType.half => some 2
  | HostType.int8_t => some 1
  | HostType.int32_t => some 4
  | HostType.uint32_t => some 4
  | HostType.int64_t => some 8
  | HostType.uint64_t => some 8
  | HostType.bool => some 1
  | HostType.uint8_t => some 1
  | HostType.nv_bfloat16 => some 2
  | HostType.nv_fp8_e4m3 => some 1
  | HostType.void => none
  | HostType.other n => some (sizeofOther n)
  | HostType.ptr _ => some 8

/-- The address a pointer holds: 0 for the null pointer. -/
def addressOf : VoidPtr → Address
  | none => 0
  | some a => a

/-- The class template `BufferRange<T>`: the members `mData` (a `T*`, kept as the
address it holds) and `mSize`, together with `sizeof(T)` of the template
argument. -/
structure BufferRange where
  sizeofT : Nat
  mData : Address
  mSize : Nat
  deriving DecidableEq, Repr

namespace BufferRange

/-- The constructor `BufferRange(IBuffer& buffer)`: `mData(bufferCast<T>(buffer))`,
`mSize(buffer.getSize())`. For a `T` without a size (`void`) the class template
cannot be instantiated. -/
def ofBuffer (sizeofOther : Nat → Nat) (cfg : BuildConfig) (T : HostType) (buffer : IBuffer) :
    Except CastFailure BufferRange :=
  match T.sizeOf sizeofOther with
  | none => Except.error CastFailure.ill_formed
  | some s =>
      match bufferCast cfg T buffer with
      | Except.error e => Except.error e
      | Except.ok p => Except.ok { sizeofT := s, mData := addressOf p, mSize := buffer.getSize }

/-- The members `begin()` and `cbegin()`. -/
def begin (r : BufferRange) : Address := r.mData

/-- The members `end()` and `cend()`: `mData + mSize`, a 64-bit pointer `mSize`
elements of `T` after `mData`. -/
def endMarker (r : BufferRange) : Address := r.mData.addBytes (r.mSize * r.sizeofT)

/-- The member `size()`. -/
def size (r : BufferRange) : Nat := r.mSize

/-- The member `operator[](index)`: the element `mData[index]`, given by its
address. -/
def elemAt (r : BufferRange) (index : Nat) : Address := r.mData.addBytes (index * r.sizeofT)

/-- The positions visited by `for (auto it = first; it != last; ++it)` over
pointers to elements of `sizeofT` bytes, `fuel` bounding the number of
iterations. -/
def iterate (sizeofT : Nat) (last : Address) : Nat → Address → List Address
  | 0, _ => []
  | fuel + 1, it =>
      if it = last then [] else it :: iterate sizeofT last fuel (it.addBytes sizeofT)

/-- The positions a range-based `for` over the window visits. -/
def positions (r : BufferRange) (fuel : Nat) : List Address :=
  iterate r.sizeofT r.endMarker fuel r.begin

end BufferRange

/-! ## Shared lemmas -/

theorem addBytes_val (p : Address) (offset : Nat) :
    (p.addBytes offset).val = (p.val + offset) % 2 ^ 64 := rfl

theorem addBytes_zero (p : Address) : p.addBytes 0 = p := by
  apply Fin.ext
  rw [addBytes_val, Nat.add_zero]
  exact Nat.mod_eq_of_lt p.isLt

theorem addBytes_addBytes (p : Address) (m n : Nat) :
    (p.addBytes m).addBytes n = p.addBytes (m + n) := by
  apply Fin.ext
  simp only [addBytes_val]
  rw [Nat.mod_add_mod, Nat.add_assoc]

theorem addBytes_ne (p : Address) (s k l : Nat) (hpos : 0 < s) (hkl : k < l)
    (hfit : l * s < 2 ^ 64) : p.addBytes (k * s) ≠ p.addBytes (l * s) := by
  intro h
  have h1 : (p.val + k * s) % 2 ^ 64 = (p.val + l * s) % 2 ^ 64 := by
    have := congrArg Fin.val h
    simpa only [addBytes_val] using this
  have h2 : Nat.ModEq (2 ^ 64) (k * s) (l * s) := Nat.ModEq.add_left_cancel' p.val h1
  have hk : k * s < 2 ^ 64 :=
    lt_of_le_of_lt (Nat.mul_le_mul_right s (Nat.le_of_lt hkl)) hfit
  unfold Nat.ModEq at h2
  rw [Nat.mod_eq_of_lt hk, Nat.mod_eq_of_lt hfit] at h2
  have h3 : k = l := Nat.eq_of_mul_eq_mul_right hpos h2
  omega

theorem kTrtPointerType_of_trt9 (cfg : BuildConfig) (h : cfg.trtMajorAtLeast9 = true) :
    BufferDataType.kTrtPointerType cfg = DataType.kINT64 := by
  simp [BufferDataType.kTrtPointerType, h]

theorem toDataType_of_trt9 (cfg : BuildConfig) (h : cfg.trtMajorAtLeast9 = true)
    (t : BufferDataType) :
    t.toDataType cfg = if t.mPointer then DataType.kINT64 else t.mDataType := by
  simp [BufferDataType.toDataType, BufferDataType.kTrtPointerType, h]

theorem toDataType_ofDataType (cfg : BuildConfig) (d : DataType) :
    (BufferDataType.ofDataType d).toDataType cfg = d := by
  simp [BufferDataType.toDataType, BufferDataType.ofDataType]

theorem fullBuild_trt9 : fullBuild.trtMajorAtLeast9 = true := by decide

theorem legacyBuild_toDataType (t : BufferDataType) :
    t.toDataType legacyBuild = t.mDataType := by
  simp [BufferDataType.toDataType, legacyBuild, BuildConfig.trtMajorAtLeast9]

/-! ## The typed accessors -/

/-- C1: for a host type `T` with a `TRTDataType` value, the cast of an immutable
buffer throws `std::bad_cast` exactly when the identifier that value converts to
differs from `buffer.getDataType()`, and returns `buffer.data()` when they are
equal; a float32 buffer requested as `half` fails. -/
theorem bufferCastConst_bad_cast_iff (cfg : BuildConfig) (T : HostType) (value : TRTValue)
    (buffer : IBuffer) (hT : TRTDataType cfg T = some value) :
    (bufferCastConst cfg T buffer = Except.error CastFailure.bad_cast ↔
        value.toDataType cfg ≠ buffer.getDataType) ∧
    (value.toDataType cfg = buffer.getDataType →
        bufferCastConst cfg T buffer = Except.ok buffer.data) ∧
    (∀ b : IBuffer, b.getDataType = DataType.kFLOAT →
        bufferCastConst cfg HostType.half b = Except.error CastFailure.bad_cast) := by
  refine ⟨?_, ?_, ?_⟩
  · by_cases hne : value.toDataType cfg = buffer.getDataType
    · simp [bufferCastConst, hT, hne]
    · simp [bufferCastConst, hT, hne]
  · intro heq
    simp [bufferCastConst, hT, heq]
  · intro b hb
    simp [bufferCastConst, TRTDataType, TRTValue.toDataType, hb]

theorem bufferCastConst_bad_cast_iff_witness :
    TRTDataType fullBuild HostType.uint32_t
        = some (TRTValue.bufferDataType
            { mDataType := DataType.kINT32, mUnsigned := true, mPointer := false }) ∧
    bufferCastConst fullBuild HostType.uint32_t
        { data := some 4096, getSize := 8, getCapacity := 8,
          getDataType := DataType.kINT32, getMemoryType := MemoryType.kCPU }
      = Except.ok (some 4096) :=
  ⟨rfl,
   (bufferCastConst_bad_cast_iff fullBuild HostType.uint32_t _
      { data := some 4096, getSize := 8, getCapacity := 8,
        getDataType := DataType.kINT32, getMemoryType := MemoryType.kCPU } rfl).2.1
      (by decide)⟩

/-- C2: the cast of a mutable buffer never fails and returns `buffer.data()`,
whatever `T` and the buffer's data type are; in particular it does so where the
cast of the same buffer taken as immutable throws `std::bad_cast`. -/
theorem bufferCast_never_fails (cfg : BuildConfig) (T : HostType) (buffer : IBuffer) :
    bufferCast cfg T buffer = Except.ok buffer.data ∧
    (∀ value, TRTDataType cfg T = some value →
        value.toDataType cfg ≠ buffer.getDataType →
        bufferCastConst cfg T buffer = Except.error CastFailure.bad_cast ∧
        bufferCast cfg T buffer = Except.ok buffer.data) := by
  refine ⟨rfl, ?_⟩
  intro value hT hne
  exact ⟨by simp [bufferCastConst, hT, hne], rfl⟩

/-! ## The type tag -/

/-- C3: in a build with `NV_TENSORRT_MAJOR >= 9`, `getSize()` is 8 when the tag
converts to `kINT64` (which is `kTrtPointerType`), 4 for `kINT32` and `kFLOAT`,
2 for `kHALF` and `kBF16`, 1 for `kINT8`, `kUINT8`, `kBOOL` and `kFP8`. -/
theorem getSize_table (cfg : BuildConfig) (h : cfg.trtMajorAtLeast9 = true)
    (t : BufferDataType) :
    BufferDataType.kTrtPointerType cfg = DataType.kINT64 ∧
    (t.toDataType cfg = DataType.kINT64 → t.getSize cfg = 8) ∧
    (t.toDataType cfg = DataType.kINT32 ∨ t.toDataType cfg = DataType.kFLOAT →
        t.getSize cfg = 4) ∧
    (t.toDataType cfg = DataType.kHALF ∨ t.toDataType cfg = DataType.kBF16 →
        t.getSize cfg = 2) ∧
    (t.toDataType cfg = DataType.kINT8 ∨ t.toDataType cfg = DataType.kUINT8 ∨
      t.toDataType cfg = DataType.kBOOL ∨ t.toDataType cfg = DataType.kFP8 →
        t.getSize cfg = 1) := by
  refine ⟨kTrtPointerType_of_trt9 cfg h, ?_, ?_, ?_, ?_⟩
  · intro hd
    simp [BufferDataType.getSize, hd, h]
  · rintro (hd | hd) <;> simp [BufferDataType.getSize, hd]
  · rintro (hd | hd) <;> simp [BufferDataType.getSize, hd, h]
  · rintro (hd | hd | hd | hd) <;> simp [BufferDataType.getSize, hd]

theorem getSize_table_witness :
    fullBuild.trtMajorAtLeast9 = true ∧
    BufferDataType.getSize fullBuild
      { mDataType := DataType.kBF16, mUnsigned := false, mPointer := false } = 2 :=
  ⟨by decide,
   (getSize_table fullBuild (by decide)
      { mDataType := DataType.kBF16, mUnsigned := false, mPointer := false }).2.2.2.1
      (Or.inr rfl)⟩

/-- C4: in a build with `NV_TENSORRT_MAJOR >= 9`, for every tag built from an
identifier, an unsigned flag and a pointer flag, `operator nvinfer1::DataType()`
returns `kTrtPointerType` when the pointer flag is set and the stored identifier
otherwise, and `getDataType()` returns the stored identifier in both cases. -/
theorem toDataType_pointer_or_stored (cfg : BuildConfig) (h : cfg.trtMajorAtLeast9 = true)
    (dataType : DataType) (u pointer : Bool) :
    BufferDataType.toDataType cfg
        { mDataType := dataType, mUnsigned := u, mPointer := pointer }
      = (if pointer then BufferDataType.kTrtPointerType cfg else dataType) ∧
    BufferDataType.getDataType
        { mDataType := dataType, mUnsigned := u, mPointer := pointer } = dataType := by
  simp [BufferDataType.toDataType, BufferDataType.getDataType, h]

theorem toDataType_pointer_or_stored_witness :
    fullBuild.trtMajorAtLeast9 = true ∧
    BufferDataType.toDataType fullBuild
        { mDataType := DataType.kHALF, mUnsigned := false, mPointer := true }
      = DataType.kINT64 ∧
    BufferDataType.getDataType
        { mDataType := DataType.kHALF, mUnsigned := false, mPointer := true }
      = DataType.kHALF :=
  ⟨by decide, toDataType_pointer_or_stored fullBuild (by decide) DataType.kHALF false true⟩

/-- C5: in a build with `NV_TENSORRT_MAJOR >= 9`, a tag with the pointer flag set
has `getSize()` equal to the size of the tag of `kTrtPointerType`, which is 8,
whatever the pointee identifier and unsigned flag are (so it differs from the
pointee's size whenever that is not 8), while `getDataType()` and `isUnsigned()`
answer as they do for the pointee. -/
theorem pointer_tag_size (cfg : BuildConfig) (h : cfg.trtMajorAtLeast9 = true)
    (dataType : DataType) (u : Bool) :
    BufferDataType.getSize cfg { mDataType := dataType, mUnsigned := u, mPointer := true }
      = BufferDataType.getSize cfg
          (BufferDataType.ofDataType (BufferDataType.kTrtPointerType cfg)) ∧
    BufferDataType.getSize cfg { mDataType := dataType, mUnsigned := u, mPointer := true }
      = 8 ∧
    (BufferDataType.getSize cfg
        { mDataType := dataType, mUnsigned := u, mPointer := false } ≠ 8 →
      BufferDataType.getSize cfg { mDataType := dataType, mUnsigned := u, mPointer := true }
        ≠ BufferDataType.getSize cfg
            { mDataType := dataType, mUnsigned := u, mPointer := false }) ∧
    BufferDataType.getDataType
        { mDataType := dataType, mUnsigned := u, mPointer := true } = dataType ∧
    BufferDataType.isUnsigned { mDataType := dataType, mUnsigned := u, mPointer := true }
      = BufferDataType.isUnsigned
          { mDataType := dataType, mUnsigned := u, mPointer := false } := by
  have h8 : BufferDataType.getSize cfg
      { mDataType := dataType, mUnsigned := u, mPointer := true } = 8 := by
    simp [BufferDataType.getSize, BufferDataType.toDataType,
      BufferDataType.kTrtPointerType, h]
  refine ⟨?_, h8, ?_, rfl, rfl⟩
  · rw [h8]
    simp [BufferDataType.getSize, BufferDataType.toDataType, BufferDataType.ofDataType,
      BufferDataType.kTrtPointerType, h]
  · intro hne
    rw [h8]
    exact fun heq => hne heq.symm

theorem pointer_tag_size_witness :
    fullBuild.trtMajorAtLeast9 = true ∧
    BufferDataType.getSize fullBuild
        { mDataType := DataType.kINT8, mUnsigned := false, mPointer := true } = 8 ∧
    BufferDataType.getSize fullBuild
        { mDataType := DataType.kINT8, mUnsigned := false, mPointer := false } = 1 :=
  ⟨by decide, (pointer_tag_size fullBuild (by decide) DataType.kINT8 false).2.1, by decide⟩

/-- C10: `isUnsigned()` is true when the stored identifier is `kBOOL` or `kUINT8`,
whatever the unsigned flag is, and is the unsigned flag for every other
identifier. -/
theorem isUnsigned_bool_uint8_or_flag (dataType : DataType) (u pointer : Bool) :
    BufferDataType.isUnsigned
        { mDataType := dataType, mUnsigned := u, mPointer := pointer }
      = (if dataType = DataType.kBOOL ∨ dataType = DataType.kUINT8 then true else u) := by
  cases dataType <;> simp [BufferDataType.isUnsigned]

/-! ## The registry of host types -/

theorem TRTDataType_ptr_eq (cfg : BuildConfig) (T : HostType) (hv : T ≠ HostType.void) :
    TRTDataType cfg (HostType.ptr T)
      = (match TRTDataType cfg T with
          | none => none
          | some v =>
              some (TRTValue.bufferDataType
                { mDataType := v.toBufferDataType.getDataType
                  mUnsigned := v.toBufferDataType.isUnsigned
                  mPointer := true })) := by
  cases T <;> first | exact absurd rfl hv | rfl

theorem isUnsigned_idem (t : BufferDataType) (pointer : Bool) :
    BufferDataType.isUnsigned
        { mDataType := t.getDataType, mUnsigned := t.isUnsigned, mPointer := pointer }
      = t.isUnsigned := by
  obtain ⟨d, u, p⟩ := t
  cases d <;> simp [BufferDataType.isUnsigned, BufferDataType.getDataType]

theorem TRTDataType_pointer_flag (cfg : BuildConfig) (T : HostType) (value : TRTValue)
    (hT : TRTDataType cfg T = some value) (hnp : ∀ U, T ≠ HostType.ptr U) :
    value.toBufferDataType.mPointer = false := by
  cases T with
  | ptr U => exact absurd rfl (hnp U)
  | _ =>
      simp [TRTDataType] at hT <;>
        first
          | (subst hT; rfl)
          | (obtain ⟨_, rfl⟩ := hT; rfl)

/-- C8: in a build with `NV_TENSORRT_MAJOR >= 9`, `ENABLE_BF16` and `ENABLE_FP8`,
`TRTDataType` maps `float` to `kFLOAT`, `half` to `kHALF`, `__nv_bfloat16` to
`kBF16`, `__nv_fp8_e4m3` to `kFP8`, `std::int8_t` to `kINT8`, `std::uint8_t` to
`kUINT8`, `std::int32_t` to `kINT32`, `std::int64_t` to `kINT64`, `bool` to `kBOOL`,
and `std::uint32_t`, `std::uint64_t` to the tags of `kINT32`, `kINT64` with the
unsigned flag set and the pointer flag clear. -/
theorem TRTDataType_table (cfg : BuildConfig) (h9 : cfg.trtMajorAtLeast9 = true)
    (hbf16 : cfg.ENABLE_BF16 = true) (hfp8 : cfg.ENABLE_FP8 = true) :
    TRTDataType cfg HostType.float = some (TRTValue.dataType DataType.kFLOAT) ∧
    TRTDataType cfg HostType.half = some (TRTValue.dataType DataType.kHALF) ∧
    TRTDataType cfg HostType.nv_bfloat16 = some (TRTValue.dataType DataType.kBF16) ∧
    TRTDataType cfg HostType.nv_fp8_e4m3 = some (TRTValue.dataType DataType.kFP8) ∧
    TRTDataType cfg HostType.int8_t = some (TRTValue.dataType DataType.kINT8) ∧
    TRTDataType cfg HostType.uint8_t = some (TRTValue.dataType DataType.kUINT8) ∧
    TRTDataType cfg HostType.int32_t = some (TRTValue.dataType DataType.kINT32) ∧
    TRTDataType cfg HostType.int64_t = some (TRTValue.dataType DataType.kINT64) ∧
    TRTDataType cfg HostType.bool = some (TRTValue.dataType DataType.kBOOL) ∧
    TRTDataType cfg HostType.uint32_t
      = some (TRTValue.bufferDataType
          { mDataType := DataType.kINT32, mUnsigned := true, mPointer := false }) ∧
    TRTDataType cfg HostType.uint64_t
      = some (TRTValue.bufferDataType
          { mDataType := DataType.kINT64, mUnsigned := true, mPointer := false }) := by
  simp [TRTDataType, h9, hbf16, hfp8]

theorem TRTDataType_table_witness :
    fullBuild.trtMajorAtLeast9 = true ∧ fullBuild.ENABLE_BF16 = true ∧
    fullBuild.ENABLE_FP8 = true ∧
    TRTDataType fullBuild HostType.uint64_t
      = some (TRTValue.bufferDataType
          { mDataType := DataType.kINT64, mUnsigned := true, mPointer := false }) :=
  ⟨by decide, rfl, rfl,
   (TRTDataType_table fullBuild (by decide) rfl rfl).2.2.2.2.2.2.2.2.2.2⟩

/-- C9: for every host type `T` with a `TRTDataType` value (in particular every
supported non-pointer one), `T*` has one too; its tag has the pointer flag set,
its `getDataType()` is that of the tag of `T`, which for a non-pointer `T` is the
identifier the value of `T` converts to, and its `isUnsigned()` is that of the tag
of `T`. -/
theorem TRTDataType_ptr (cfg : BuildConfig) (T : HostType) (value : TRTValue)
    (hT : TRTDataType cfg T = some value) :
    ∃ w, TRTDataType cfg (HostType.ptr T) = some w ∧
      w.toBufferDataType.isPointer = true ∧
      w.toBufferDataType.getDataType = value.toBufferDataType.getDataType ∧
      ((∀ U, T ≠ HostType.ptr U) →
        w.toBufferDataType.getDataType = value.toDataType cfg) ∧
      w.toBufferDataType.isUnsigned = value.toBufferDataType.isUnsigned := by
  have hv : T ≠ HostType.void := by
    rintro rfl
    simp [TRTDataType] at hT
  refine ⟨TRTValue.bufferDataType
      { mDataType := value.toBufferDataType.getDataType
        mUnsigned := value.toBufferDataType.isUnsigned
        mPointer := true },
    by rw [TRTDataType_ptr_eq cfg T hv, hT], rfl, rfl, ?_, ?_⟩
  · intro hnp
    have hp := TRTDataType_pointer_flag cfg T value hT hnp
    cases value with
    | dataType d => rfl
    | bufferDataType t =>
        have hp2 : t.mPointer = false := hp
        simp [TRTValue.toBufferDataType, TRTValue.toDataType, BufferDataType.toDataType,
          BufferDataType.getDataType, hp2]
  · exact isUnsigned_idem value.toBufferDataType true

theorem TRTDataType_ptr_witness :
    TRTDataType fullBuild HostType.uint32_t
      = some (TRTValue.bufferDataType
          { mDataType := DataType.kINT32, mUnsigned := true, mPointer := false }) ∧
    ∃ w, TRTDataType fullBuild (HostType.ptr HostType.uint32_t) = some w ∧
      w.toBufferDataType.isPointer = true ∧
      w.toBufferDataType.getDataType = DataType.kINT32 ∧
      ((∀ U, HostType.uint32_t ≠ HostType.ptr U) →
        w.toBufferDataType.getDataType = DataType.kINT32) ∧
      w.toBufferDataType.isUnsigned = true :=
  ⟨rfl, TRTDataType_ptr fullBuild HostType.uint32_t _ rfl⟩

/-! ## Sizes in bytes and element addresses -/

/-- C6, as stated, fails: a buffer of `2^62` elements of `kINT32` (4 bytes each)
reports `0` bytes, not `2^62 * 4`. -/
theorem getSizeInBytes_counterexample :
    IBuffer.getSizeInBytes fullBuild
        { data := some 4096, getSize := 2 ^ 62, getCapacity := 2 ^ 62,
          getDataType := DataType.kINT32, getMemoryType := MemoryType.kCPU } = 0 ∧
    IBuffer.getSizeInBytes fullBuild
        { data := some 4096, getSize := 2 ^ 62, getCapacity := 2 ^ 62,
          getDataType := DataType.kINT32, getMemoryType := MemoryType.kCPU }
      ≠ 2 ^ 62 * BufferDataType.getSize fullBuild (BufferDataType.ofDataType DataType.kINT32) := by
  decide

/-- C6, amended: `getSizeInBytes()` is `getSize()` times the byte width of
`getDataType()` reduced modulo `2^64`; it is exactly that product whenever the
product is below `2^64`, and 10 elements of a 4-byte type report 40 bytes. -/
theorem getSizeInBytes_eq (cfg : BuildConfig) (b : IBuffer) :
    b.getSizeInBytes cfg
      = (b.getSize * (BufferDataType.ofDataType b.getDataType).getSize cfg) % 2 ^ 64 ∧
    (b.getSize * (BufferDataType.ofDataType b.getDataType).getSize cfg < 2 ^ 64 →
      b.getSizeInBytes cfg
        = b.getSize * (BufferDataType.ofDataType b.getDataType).getSize cfg) ∧
    (b.getSize = 10 → (BufferDataType.ofDataType b.getDataType).getSize cfg = 4 →
      b.getSizeInBytes cfg = 40) := by
  refine ⟨rfl, ?_, ?_⟩
  · intro hlt
    exact Nat.mod_eq_of_lt hlt
  · intro hs hw
    simp [IBuffer.getSizeInBytes, IBuffer.toBytes, SIZE_T_MOD, hs, hw]

/-- C7: `data(index)` is null when `data()` is null; otherwise it is the pointer
whose address is that of `data()` advanced by `index` times the byte width of
`getDataType()`, addresses being 64 bits wide (so it is the plain sum whenever
that is below `2^64`); `data(0)` is `data()`. All of this holds for the non-const
and for the const overload, which return the same pointer. -/
theorem dataAt_advances (cfg : BuildConfig) (b : IBuffer) (index : Nat) :
    (b.data = none → b.dataAt cfg index = none ∧ b.dataAtConst cfg index = none) ∧
    (∀ p, b.data = some p →
      ∃ q, b.dataAt cfg index = some q ∧ b.dataAtConst cfg index = some q ∧
        q.val = (p.val + index * (BufferDataType.ofDataType b.getDataType).getSize cfg)
                  % 2 ^ 64 ∧
        (p.val + index * (BufferDataType.ofDataType b.getDataType).getSize cfg < 2 ^ 64 →
          q.val = p.val + index * (BufferDataType.ofDataType b.getDataType).getSize cfg)) ∧
    b.dataAt cfg 0 = b.data ∧
    b.dataAtConst cfg 0 = b.data ∧
    b.dataAtConst cfg index = b.dataAt cfg index := by
  have hq : ∀ p : Address,
      (p.addBytes (b.toBytes cfg index)).val
        = (p.val + index * (BufferDataType.ofDataType b.getDataType).getSize cfg)
            % 2 ^ 64 := by
    intro p
    rw [addBytes_val]
    exact Nat.add_mod_mod _ _ _
  have h0 : b.toBytes cfg 0 = 0 := by simp [IBuffer.toBytes]
  refine ⟨?_, ?_, ?_, ?_, rfl⟩
  · intro h
    simp [IBuffer.dataAt, IBuffer.dataAtConst, h]
  · intro p h
    refine ⟨p.addBytes (b.toBytes cfg index), by simp [IBuffer.dataAt, h],
      by simp [IBuffer.dataAtConst, h], hq p, ?_⟩
    intro hlt
    rw [hq p]
    exact Nat.mod_eq_of_lt hlt
  · cases h : b.data <;> simp [IBuffer.dataAt, h, h0, addBytes_zero]
  · cases h : b.data <;> simp [IBuffer.dataAtConst, h, h0, addBytes_zero]

/-! ## Slices and views -/

theorem sizeSub_of_le (a b : Nat) (ha : a < 2 ^ 64) (hb : b ≤ a) : sizeSub a b = a - b := by
  unfold sizeSub SIZE_T_MOD
  have h1 : ((a : Int) - (b : Int)) = ((a - b : Nat) : Int) := by omega
  rw [h1]
  have h2 : (((a - b : Nat) : Int) % ((2 ^ 64 : Nat) : Int)) = ((a - b : Nat) : Int) := by
    apply Int.emod_eq_of_lt <;> omega
  rw [h2]
  exact Int.toNat_ofNat _

theorem sizeSub_of_lt (a b : Nat) (hb : b < 2 ^ 64) (hab : a < b) :
    sizeSub a b = 2 ^ 64 + a - b := by
  unfold sizeSub SIZE_T_MOD
  have h1 : ((a : Int) - (b : Int))
      = ((2 ^ 64 + a - b : Nat) : Int) + (-1) * ((2 ^ 64 : Nat) : Int) := by
    push_cast
    omega
  rw [h1, Int.add_mul_emod_self]
  have h2 : (((2 ^ 64 + a - b : Nat) : Int) % ((2 ^ 64 : Nat) : Int))
      = ((2 ^ 64 + a - b : Nat) : Int) := by
    apply Int.emod_eq_of_lt <;> omega
  rw [h2]
  exact Int.toNat_ofNat _

/-- C11: `slice(buffer, offset)` returns what `slice(buffer, offset, size)` returns
(the same view or the same failure) for `size` the difference
`buffer.getSize() - offset` taken as a `std::size_t`; for an offset within the
size that is the plain difference. -/
theorem slice_eq_slice_sized {ε : Type} (impl : DeclaredMembers ε) (buffer : IBuffer)
    (offset : Nat) :
    IBuffer.slice impl buffer offset
      = impl.slice buffer offset
          ((((buffer.getSize : Int) - (offset : Int)) % (2 ^ 64 : Int)).toNat) ∧
    (buffer.getSize < 2 ^ 64 → offset ≤ buffer.getSize →
      IBuffer.slice impl buffer offset
        = impl.slice buffer offset (buffer.getSize - offset)) := by
  refine ⟨?_, ?_⟩
  · simp [IBuffer.slice, sizeSub, SIZE_T_MOD]
  · intro hs ho
    simp [IBuffer.slice, sizeSub_of_le _ _ hs ho]

/-- C12: `view(buffer)` is `slice(buffer, 0)`, which for a buffer whose size is a
`std::size_t` value is `slice(buffer, 0, buffer.getSize())`; `view(buffer, size)`
is that view after `resize(size)`: a failure of the view or of the resize is
returned in place of a view. -/
theorem view_eq_slice_zero {ε : Type} (impl : DeclaredMembers ε) (tensor : IBuffer)
    (size : Nat) (hs : tensor.getSize < 2 ^ 64) :
    IBuffer.view impl tensor = IBuffer.slice impl tensor 0 ∧
    IBuffer.slice impl tensor 0 = impl.slice tensor 0 tensor.getSize ∧
    (∀ v, IBuffer.view impl tensor = Except.ok v →
      IBuffer.viewResized impl tensor size = impl.resize v size) ∧
    (∀ v e, IBuffer.view impl tensor = Except.ok v → impl.resize v size = Except.error e →
      IBuffer.viewResized impl tensor size = Except.error e) ∧
    (∀ e, IBuffer.view impl tensor = Except.error e →
      IBuffer.viewResized impl tensor size = Except.error e) := by
  refine ⟨rfl, ?_, ?_, ?_, ?_⟩
  · simp [IBuffer.slice, sizeSub_of_le _ _ hs (Nat.zero_le _)]
  · intro v hv
    simp [IBuffer.viewResized, hv]
  · intro v e hv he
    simp [IBuffer.viewResized, hv, he]
  · intro e he
    simp [IBuffer.viewResized, he]

theorem view_eq_slice_zero_witness :
    (8 : Nat) < 2 ^ 64 ∧
    IBuffer.view (specMembers fullBuild (fun _ => MemoryType.kCPU))
        { data := some 4096, getSize := 8, getCapacity := 16,
          getDataType := DataType.kINT32, getMemoryType := MemoryType.kCPU }
      = Except.ok
        { data := some 4096, getSize := 8, getCapacity := 16,
          getDataType := DataType.kINT32, getMemoryType := MemoryType.kCPU } ∧
    IBuffer.viewResized (specMembers fullBuild (fun _ => MemoryType.kCPU))
        { data := some 4096, getSize := 8, getCapacity := 16,
          getDataType := DataType.kINT32, getMemoryType := MemoryType.kCPU } 12
      = Except.ok
        { data := some 4096, getSize := 12, getCapacity := 16,
          getDataType := DataType.kINT32, getMemoryType := MemoryType.kCPU } :=
  ⟨by decide, rfl,
   ((view_eq_slice_zero (specMembers fullBuild (fun _ => MemoryType.kCPU))
      { data := some 4096, getSize := 8, getCapacity := 16,
        getDataType := DataType.kINT32, getMemoryType := MemoryType.kCPU } 12
      (by decide)).2.2.1
      { data := some 4096, getSize := 8, getCapacity := 16,
        getDataType := DataType.kINT32, getMemoryType := MemoryType.kCPU } rfl).trans rfl⟩

/-! ## The iteration window -/

theorem iterate_eq_map (s : Nat) (hpos : 0 < s) (a : Address) (d : Nat) :
    ∀ (k fuel : Nat), d ≤ fuel → (k + d) * s < 2 ^ 64 →
      BufferRange.iterate s (a.addBytes ((k + d) * s)) fuel (a.addBytes (k * s))
        = (List.range' k d).map (fun j => a.addBytes (j * s)) := by
  induction d with
  | zero =>
      intro k fuel _ _
      cases fuel <;> simp [BufferRange.iterate]
  | succ d ih =>
      intro k fuel hf hfit
      obtain ⟨f, rfl⟩ : ∃ f, fuel = f + 1 := ⟨fuel - 1, by omega⟩
      have hne : a.addBytes (k * s) ≠ a.addBytes ((k + (d + 1)) * s) :=
        addBytes_ne a s k (k + (d + 1)) hpos (by omega) hfit
      have hidx : k + 1 + d = k + (d + 1) := by omega
      have hstep := ih (k + 1) f (by omega) (by rw [hidx]; exact hfit)
      rw [hidx] at hstep
      have hnext : (a.addBytes (k * s)).addBytes s = a.addBytes ((k + 1) * s) := by
        rw [addBytes_addBytes, Nat.succ_mul]
      simp [BufferRange.iterate, hne, hnext, hstep, List.range'_succ]

theorem positions_eq_map (r : BufferRange) (fuel : Nat) (hpos : 0 < r.sizeofT)
    (hf : r.mSize ≤ fuel) (hfit : r.mSize * r.sizeofT < 2 ^ 64) :
    r.positions fuel = (List.range r.mSize).map (fun i => r.mData.addBytes (i * r.sizeofT)) := by
  have h := iterate_eq_map r.sizeofT hpos r.mData r.mSize 0 fuel hf
    (by rw [Nat.zero_add]; exact hfit)
  simp only [Nat.zero_add, Nat.zero_mul, addBytes_zero] at h
  simp only [BufferRange.positions, BufferRange.endMarker, BufferRange.begin, h,
    List.range_eq_range']

/-- C13, as stated, fails: over a buffer of `2^62` elements of `float` (4 bytes
each) the window has `size() == 2^62`, but its `end()` is its `begin()`, and
iterating from `begin()` to `end()` visits no position at all. -/
theorem bufferRange_counterexample :
    ∃ r, BufferRange.ofBuffer (fun _ => 1) fullBuild HostType.float
        { data := some 4096, getSize := 2 ^ 62, getCapacity := 2 ^ 62,
          getDataType := DataType.kFLOAT, getMemoryType := MemoryType.kCPU } = Except.ok r ∧
      r.size = 2 ^ 62 ∧
      r.endMarker = r.begin ∧
      ∀ fuel, r.positions fuel = [] := by
  refine ⟨{ sizeofT := 4, mData := 4096, mSize := 2 ^ 62 }, rfl, rfl, by decide, ?_⟩
  intro fuel
  have hend : BufferRange.endMarker { sizeofT := 4, mData := 4096, mSize := 2 ^ 62 }
      = BufferRange.begin { sizeofT := 4, mData := 4096, mSize := 2 ^ 62 } := by decide
  cases fuel with
  | zero => rfl
  | succ f =>
      unfold BufferRange.positions
      rw [hend]
      simp [BufferRange.iterate]

/-- C13, amended: for `T` of size `s > 0`, a `BufferRange<T>` constructed over a
buffer of `n = buffer.getSize()` elements exists, has `size() == n`, its `begin()`
is `buffer.data()`, its `end()` is the address `n * s` bytes after it modulo
`2^64`, and `operator[](i)` designates the address `i * s` bytes after
`buffer.data()` modulo `2^64`; when `n * s < 2^64`, iterating from `begin()` to
`end()` visits exactly `n` positions, the `i`-th being the element
`operator[](i)` designates, so over 5 elements there are 5 positions. -/
theorem bufferRange_positions (sizeofOther : Nat → Nat) (cfg : BuildConfig) (T : HostType)
    (buffer : IBuffer) (s : Nat) (a : Address)
    (hs : T.sizeOf sizeofOther = some s) (hpos : 0 < s)
    (ha : buffer.data = some a ∨ (buffer.data = none ∧ a = 0)) :
    ∃ r, BufferRange.ofBuffer sizeofOther cfg T buffer = Except.ok r ∧
      r.size = buffer.getSize ∧
      r.begin = a ∧
      r.endMarker.val = (a.val + buffer.getSize * s) % 2 ^ 64 ∧
      (∀ i, (r.elemAt i).val = (a.val + i * s) % 2 ^ 64) ∧
      (buffer.getSize * s < 2 ^ 64 →
        (∀ fuel, buffer.getSize ≤ fuel →
          (r.positions fuel).map Fin.val
            = (List.range buffer.getSize).map (fun i => (a.val + i * s) % 2 ^ 64) ∧
          (r.positions fuel).length = buffer.getSize) ∧
        (∀ i, i < buffer.getSize →
          (r.positions buffer.getSize)[i]? = some (r.elemAt i)) ∧
        (buffer.getSize = 5 → (r.positions 5).length = 5)) := by
  have haddr : addressOf buffer.data = a := by
    rcases ha with h | ⟨h, h0⟩
    · rw [h]; rfl
    · rw [h, h0]; rfl
  refine ⟨{ sizeofT := s, mData := a, mSize := buffer.getSize }, ?_, rfl, rfl, rfl,
    fun _ => rfl, ?_⟩
  · simp [BufferRange.ofBuffer, hs, bufferCast, haddr]
  · intro hfit
    have hmap : ∀ fuel, buffer.getSize ≤ fuel →
        BufferRange.positions { sizeofT := s, mData := a, mSize := buffer.getSize } fuel
          = (List.range buffer.getSize).map (fun i => a.addBytes (i * s)) :=
      fun fuel hf =>
        positions_eq_map { sizeofT := s, mData := a, mSize := buffer.getSize } fuel hpos hf hfit
    refine ⟨?_, ?_, ?_⟩
    · intro fuel hf
      rw [hmap fuel hf]
      refine ⟨?_, by simp⟩
      rw [List.map_map]
      rfl
    · intro i hi
      rw [hmap _ (Nat.le_refl _)]
      simp [List.getElem?_map, List.getElem?_range hi, BufferRange.elemAt]
    · intro h5
      rw [hmap 5 (by omega)]
      simp [h5]

theorem bufferRange_positions_witness :
    HostType.sizeOf (fun _ => 1) HostType.float = some 4 ∧
    ∃ r, BufferRange.ofBuffer (fun _ => 1) fullBuild HostType.float
        { data := some 4096, getSize := 5, getCapacity := 8,
          getDataType := DataType.kFLOAT, getMemoryType := MemoryType.kCPU } = Except.ok r ∧
      r.size = 5 ∧
      r.begin = 4096 ∧
      r.endMarker.val = (4096 + 5 * 4) % 2 ^ 64 ∧
      (∀ i, (r.elemAt i).val = (4096 + i * 4) % 2 ^ 64) ∧
      ((5 : Nat) * 4 < 2 ^ 64 →
        (∀ fuel, 5 ≤ fuel →
          (r.positions fuel).map Fin.val
            = (List.range 5).map (fun i => (4096 + i * 4) % 2 ^ 64) ∧
          (r.positions fuel).length = 5) ∧
        (∀ i, i < 5 → (r.positions 5)[i]? = some (r.elemAt i)) ∧
        ((5 : Nat) = 5 → (r.positions 5).length = 5)) :=
  ⟨rfl,
   bufferRange_positions (fun _ => 1) fullBuild HostType.float
     { data := some 4096, getSize := 5, getCapacity := 8,
       getDataType := DataType.kFLOAT, getMemoryType := MemoryType.kCPU } 4 4096
     rfl (by decide) (Or.inl rfl)⟩

/-! ## Identifiers without a byte width -/

/-- C14: when the identifier a tag converts to is none of those the switch of
`getSize()` names, `getSize()` returns 0 (it is a total function: no failure is
raised); a buffer whose data type is such an identifier has `getSizeInBytes()`
equal to 0 and `data(index)` equal to `data()` for every index. -/
theorem getSize_outside_table (cfg : BuildConfig) (t : BufferDataType) (b : IBuffer)
    (ht : t.toDataType cfg ∉ [DataType.kINT64, DataType.kINT32, DataType.kFLOAT,
      DataType.kBF16, DataType.kHALF, DataType.kBOOL, DataType.kUINT8, DataType.kINT8,
      DataType.kFP8])
    (hb : b.getDataType ∉ [DataType.kINT64, DataType.kINT32, DataType.kFLOAT,
      DataType.kBF16, DataType.kHALF, DataType.kBOOL, DataType.kUINT8, DataType.kINT8,
      DataType.kFP8]) :
    t.getSize cfg = 0 ∧
    b.getSizeInBytes cfg = 0 ∧
    (∀ index, b.dataAt cfg index = b.data ∧ b.dataAtConst cfg index = b.data) := by
  have key : ∀ s : BufferDataType,
      s.toDataType cfg ∉ [DataType.kINT64, DataType.kINT32, DataType.kFLOAT,
        DataType.kBF16, DataType.kHALF, DataType.kBOOL, DataType.kUINT8, DataType.kINT8,
        DataType.kFP8] → s.getSize cfg = 0 := by
    intro s hs
    unfold BufferDataType.getSize
    cases hd : s.toDataType cfg <;> simp [hd] at hs ⊢
  have hw : (BufferDataType.ofDataType b.getDataType).getSize cfg = 0 :=
    key _ (by rw [toDataType_ofDataType]; exact hb)
  refine ⟨key t ht, ?_, ?_⟩
  · simp [IBuffer.getSizeInBytes, IBuffer.toBytes, hw]
  · intro index
    cases h : b.data <;>
      simp [IBuffer.dataAt, IBuffer.dataAtConst, IBuffer.toBytes, hw, h, addBytes_zero]

theorem getSize_outside_table_witness :
    BufferDataType.getSize fullBuild (BufferDataType.ofDataType (DataType.kOTHER 9)) = 0 ∧
    IBuffer.getSizeInBytes fullBuild
        { data := some 4096, getSize := 10, getCapacity := 10,
          getDataType := DataType.kOTHER 9, getMemoryType := MemoryType.kGPU } = 0 ∧
    (∀ index,
      IBuffer.dataAt fullBuild
          { data := some 4096, getSize := 10, getCapacity := 10,
            getDataType := DataType.kOTHER 9, getMemoryType := MemoryType.kGPU } index
        = some 4096 ∧
      IBuffer.dataAtConst fullBuild
          { data := some 4096, getSize := 10, getCapacity := 10,
            getDataType := DataType.kOTHER 9, getMemoryType := MemoryType.kGPU } index
        = some 4096) :=
  getSize_outside_table fullBuild (BufferDataType.ofDataType (DataType.kOTHER 9))
    { data := some 4096, getSize := 10, getCapacity := 10,
      getDataType := DataType.kOTHER 9, getMemoryType := MemoryType.kGPU }
    (by decide) (by decide)

/-! ## The factories `wrap` -/

theorem wrapTypedSize_none {ε : Type} (impl : DeclaredMembers ε) (cfg : BuildConfig)
    (T : HostType) (data : VoidPtr) (size : Nat) :
    ∀ fuel, IBuffer.wrapTypedSize impl cfg T fuel data size = none := by
  intro fuel
  induction fuel with
  | zero => rfl
  | succ n ih => simpa [IBuffer.wrapTypedSize] using ih

/-- C15, what the code does: `wrap<T>(data, size)` calls itself with the same
arguments, so no number of nested calls makes it return; for a supported `T` it
therefore never yields what `wrap<T>(data, size, size)` returns, whereas the
untyped `wrap(data, type, size)` does return `wrap(data, type, size, size)`. -/
theorem wrapTypedSize_never_returns {ε : Type} (impl : DeclaredMembers ε)
    (cfg : BuildConfig) (T : HostType) (data : VoidPtr) (size : Nat) :
    (∀ fuel, IBuffer.wrapTypedSize impl cfg T fuel data size = none) ∧
    (∀ value, TRTDataType cfg T = some value →
      IBuffer.wrapTyped impl cfg T data size size
          = some (impl.wrap data (value.toDataType cfg) size size) ∧
      ∀ fuel, IBuffer.wrapTypedSize impl cfg T fuel data size
          ≠ IBuffer.wrapTyped impl cfg T data size size) ∧
    (∀ type, IBuffer.wrapSize impl data type size = impl.wrap data type size size) := by
  refine ⟨wrapTypedSize_none impl cfg T data size, ?_, fun _ => rfl⟩
  intro value hT
  have hw : IBuffer.wrapTyped impl cfg T data size size
      = some (impl.wrap data (value.toDataType cfg) size size) := by
    simp [IBuffer.wrapTyped, hT]
  refine ⟨hw, ?_⟩
  intro fuel
  rw [wrapTypedSize_none impl cfg T data size fuel, hw]
  exact fun h => Option.noConfusion h

/-! ## The two registries together -/

theorem CppDataType_pointer (cfg : BuildConfig) (d : DataType) (u : Bool) :
    CppDataType cfg d u true = (CppDataType cfg d u false).map HostType.ptr := by
  simp [CppDataType]

/-- C16: for every non-pointer host type `T` with a `TRTDataType` value, `CppDataType`
at the `getDataType()`, `isUnsigned()` and `isPointer()` of the tag of `T` is `T`,
and `CppDataType` at those of the tag of `T*` is `T*`. -/
theorem CppDataType_TRTDataType_roundtrip (cfg : BuildConfig) (T : HostType)
    (value : TRTValue) (hT : TRTDataType cfg T = some value)
    (hnp : ∀ U, T ≠ HostType.ptr U) :
    CppDataType cfg value.toBufferDataType.getDataType value.toBufferDataType.isUnsigned
        value.toBufferDataType.isPointer = some T ∧
    ∃ w, TRTDataType cfg (HostType.ptr T) = some w ∧
      CppDataType cfg w.toBufferDataType.getDataType w.toBufferDataType.isUnsigned
        w.toBufferDataType.isPointer = some (HostType.ptr T) := by
  have hbase : CppDataType cfg value.toBufferDataType.getDataType
      value.toBufferDataType.isUnsigned false = some T ∧
      value.toBufferDataType.isPointer = false := by
    cases T with
    | ptr U => exact absurd rfl (hnp U)
    | _ =>
        simp [TRTDataType] at hT <;>
          first
            | (subst hT
               simp [CppDataType, TRTValue.toBufferDataType, BufferDataType.ofDataType,
                 BufferDataType.getDataType, BufferDataType.isUnsigned,
                 BufferDataType.isPointer])
            | (obtain ⟨h1, rfl⟩ := hT
               simp [CppDataType, TRTValue.toBufferDataType, BufferDataType.ofDataType,
                 BufferDataType.getDataType, BufferDataType.isUnsigned,
                 BufferDataType.isPointer, h1])
  have hv : T ≠ HostType.void := by
    rintro rfl
    simp [TRTDataType] at hT
  refine ⟨by rw [hbase.2]; exact hbase.1, ?_⟩
  refine ⟨TRTValue.bufferDataType
      { mDataType := value.toBufferDataType.getDataType
        mUnsigned := value.toBufferDataType.isUnsigned
        mPointer := true },
    by rw [TRTDataType_ptr_eq cfg T hv, hT], ?_⟩
  show CppDataType cfg value.toBufferDataType.getDataType
      (BufferDataType.isUnsigned
        { mDataType := value.toBufferDataType.getDataType
          mUnsigned := value.toBufferDataType.isUnsigned
          mPointer := true }) true = some (HostType.ptr T)
  rw [isUnsigned_idem value.toBufferDataType true, CppDataType_pointer, hbase.1]
  rfl

theorem CppDataType_TRTDataType_roundtrip_witness :
    TRTDataType fullBuild HostType.uint64_t
      = some (TRTValue.bufferDataType
          { mDataType := DataType.kINT64, mUnsigned := true, mPointer := false }) ∧
    (∀ U, HostType.uint64_t ≠ HostType.ptr U) ∧
    CppDataType fullBuild DataType.kINT64 true false = some HostType.uint64_t ∧
    ∃ w, TRTDataType fullBuild (HostType.ptr HostType.uint64_t) = some w ∧
      CppDataType fullBuild w.toBufferDataType.getDataType w.toBufferDataType.isUnsigned
        w.toBufferDataType.isPointer = some (HostType.ptr HostType.uint64_t) :=
  ⟨rfl, fun _ h => HostType.noConfusion h,
   CppDataType_TRTDataType_roundtrip fullBuild HostType.uint64_t _ rfl
     (fun _ h => HostType.noConfusion h)⟩

/-! ## The size a slice without a size asks for -/

/-- C17: for a size and an offset that are `std::size_t` values, the count that
`slice(buffer, offset)` passes to `slice(buffer, offset, count)` is
`getSize() - offset` when `offset ≤ getSize()`, with `offset + count = getSize()`,
and `2^64 + getSize() - offset` when `offset > getSize()`, with `offset + count`
equal to `getSize()` modulo `2^64`; in both cases the result is whatever the
three-argument `slice` returns for that count, nothing being raised before. -/
theorem slice_count {ε : Type} (impl : DeclaredMembers ε) (buffer : IBuffer) (offset : Nat)
    (hs : buffer.getSize < 2 ^ 64) (ho : offset < 2 ^ 64) :
    (offset ≤ buffer.getSize →
      sizeSub buffer.getSize offset = buffer.getSize - offset ∧
      offset + sizeSub buffer.getSize offset = buffer.getSize ∧
      IBuffer.slice impl buffer offset
        = impl.slice buffer offset (buffer.getSize - offset)) ∧
    (buffer.getSize < offset →
      sizeSub buffer.getSize offset = 2 ^ 64 + buffer.getSize - offset ∧
      (offset + sizeSub buffer.getSize offset) % 2 ^ 64 = buffer.getSize ∧
      IBuffer.slice impl buffer offset
        = impl.slice buffer offset (2 ^ 64 + buffer.getSize - offset)) := by
  refine ⟨?_, ?_⟩
  · intro hle
    have h := sizeSub_of_le buffer.getSize offset hs hle
    refine ⟨h, by rw [h]; omega, by simp [IBuffer.slice, h]⟩
  · intro hlt
    have h := sizeSub_of_lt buffer.getSize offset ho hlt
    refine ⟨h, ?_, by simp [IBuffer.slice, h]⟩
    rw [h]
    have e : offset + (2 ^ 64 + buffer.getSize - offset) = buffer.getSize + 2 ^ 64 := by
      omega
    rw [e, Nat.add_mod_right]
    exact Nat.mod_eq_of_lt hs

theorem slice_count_witness :
    (8 : Nat) < 2 ^ 64 ∧ (10 : Nat) < 2 ^ 64 ∧ (8 : Nat) < 10 ∧
    sizeSub 8 10 = 2 ^ 64 + 8 - 10 ∧
    (10 + sizeSub 8 10) % 2 ^ 64 = 8 ∧
    IBuffer.slice (specMembers fullBuild (fun _ => MemoryType.kCPU))
        { data := some 4096, getSize := 8, getCapacity := 16,
          getDataType := DataType.kINT32, getMemoryType := MemoryType.kCPU } 10
      = (specMembers fullBuild (fun _ => MemoryType.kCPU)).slice
          { data := some 4096, getSize := 8, getCapacity := 16,
            getDataType := DataType.kINT32, getMemoryType := MemoryType.kCPU } 10
          (2 ^ 64 + 8 - 10) :=
  ⟨by decide, by decide, by decide,
   (slice_count (specMembers fullBuild (fun _ => MemoryType.kCPU))
      { data := some 4096, getSize := 8, getCapacity := 16,
        getDataType := DataType.kINT32, getMemoryType := MemoryType.kCPU } 10
      (by decide) (by decide)).2 (by decide)⟩

/-! ## Casts that agree -/

theorem TRTDataType_ptr_toDataType (cfg : BuildConfig) (h9 : cfg.trtMajorAtLeast9 = true)
    (P : HostType) (w : TRTValue) (hP : TRTDataType cfg (HostType.ptr P) = some w) :
    w.toDataType cfg = BufferDataType.kTrtPointerType cfg := by
  by_cases hv : P = HostType.void
  · subst hv
    simp [TRTDataType] at hP
    subst hP
    rfl
  · rw [TRTDataType_ptr_eq cfg P hv] at hP
    cases hPv : TRTDataType cfg P with
    | none => simp [hPv] at hP
    | some v =>
        simp [hPv] at hP
        subst hP
        simp [TRTValue.toDataType, BufferDataType.toDataType, h9]

/-- C18: two host types whose `TRTDataType` values convert to the same identifier
get the same result from the cast of an immutable buffer, so one succeeds exactly
when the other does; a `kINT32` buffer is accepted as `std::uint32_t`, and with
`NV_TENSORRT_MAJOR >= 9` a buffer of `kTrtPointerType` (`kINT64`) is accepted as
`std::int64_t`, as `std::uint64_t` and as every pointer type with a `TRTDataType`
value. -/
theorem bufferCastConst_same_identifier (cfg : BuildConfig) (T U : HostType)
    (vT vU : TRTValue) (buffer : IBuffer)
    (hT : TRTDataType cfg T = some vT) (hU : TRTDataType cfg U = some vU)
    (heq : vT.toDataType cfg = vU.toDataType cfg) :
    bufferCastConst cfg T buffer = bufferCastConst cfg U buffer ∧
    ((∃ p, bufferCastConst cfg T buffer = Except.ok p) ↔
      (∃ p, bufferCastConst cfg U buffer = Except.ok p)) ∧
    (buffer.getDataType = DataType.kINT32 →
      bufferCastConst cfg HostType.uint32_t buffer = Except.ok buffer.data) ∧
    (cfg.trtMajorAtLeast9 = true →
      buffer.getDataType = BufferDataType.kTrtPointerType cfg →
      BufferDataType.kTrtPointerType cfg = DataType.kINT64 ∧
      bufferCastConst cfg HostType.int64_t buffer = Except.ok buffer.data ∧
      bufferCastConst cfg HostType.uint64_t buffer = Except.ok buffer.data ∧
      ∀ P w, TRTDataType cfg (HostType.ptr P) = some w →
        bufferCastConst cfg (HostType.ptr P) buffer = Except.ok buffer.data) := by
  have hsame : bufferCastConst cfg T buffer = bufferCastConst cfg U buffer := by
    simp [bufferCastConst, hT, hU, heq]
  refine ⟨hsame, by rw [hsame], ?_, ?_⟩
  · intro hb
    simp [bufferCastConst, TRTDataType, TRTValue.toDataType, BufferDataType.toDataType, hb]
  · intro h9 hb
    have hk := kTrtPointerType_of_trt9 cfg h9
    rw [hk] at hb
    refine ⟨hk, ?_, ?_, ?_⟩
    · simp [bufferCastConst, TRTDataType, TRTValue.toDataType, h9, hb]
    · simp [bufferCastConst, TRTDataType, TRTValue.toDataType, BufferDataType.toDataType,
        h9, hb]
    · intro P w hP
      have hw := TRTDataType_ptr_toDataType cfg h9 P w hP
      rw [hk] at hw
      simp [bufferCastConst, hP, hw, hb]

theorem bufferCastConst_same_identifier_witness :
    TRTDataType fullBuild HostType.int32_t = some (TRTValue.dataType DataType.kINT32) ∧
    TRTDataType fullBuild HostType.uint32_t
      = some (TRTValue.bufferDataType
          { mDataType := DataType.kINT32, mUnsigned := true, mPointer := false }) ∧
    bufferCastConst fullBuild HostType.int32_t
        { data := some 4096, getSize := 8, getCapacity := 8,
          getDataType := DataType.kINT32, getMemoryType := MemoryType.kCPU }
      = bufferCastConst fullBuild HostType.uint32_t
        { data := some 4096, getSize := 8, getCapacity := 8,
          getDataType := DataType.kINT32, getMemoryType := MemoryType.kCPU } :=
  ⟨rfl, rfl,
   (bufferCastConst_same_identifier fullBuild HostType.int32_t HostType.uint32_t _ _
      { data := some 4096, getSize := 8, getCapacity := 8,
        getDataType := DataType.kINT32, getMemoryType := MemoryType.kCPU }
      rfl rfl rfl).1⟩

/-- C19: for a host type `T` with a `TRTDataType` value, `wrap<T>(data, size, capacity)`
returns what `wrap(data, id, size, capacity)` returns for `id` the identifier that
value converts to, the size and capacity unchanged: `kINT32` for `std::uint32_t`
and, with `NV_TENSORRT_MAJOR >= 9`, `kTrtPointerType` for every pointer type;
`wrap(v)` is `wrap<T>(v.data(), v.size(), v.capacity())`, where the size does not
exceed the capacity. -/
theorem wrapTyped_eq_wrap {ε : Type} (impl : DeclaredMembers ε) (cfg : BuildConfig)
    (T : HostType) (value : TRTValue) (data : VoidPtr) (size capacity : Nat)
    (hT : TRTDataType cfg T = some value) :
    IBuffer.wrapTyped impl cfg T data size capacity
      = some (impl.wrap data (value.toDataType cfg) size capacity) ∧
    IBuffer.wrapTyped impl cfg HostType.uint32_t data size capacity
      = some (impl.wrap data DataType.kINT32 size capacity) ∧
    (cfg.trtMajorAtLeast9 = true → ∀ P w, TRTDataType cfg (HostType.ptr P) = some w →
      IBuffer.wrapTyped impl cfg (HostType.ptr P) data size capacity
        = some (impl.wrap data (BufferDataType.kTrtPointerType cfg) size capacity)) ∧
    (∀ v : StdVector,
      IBuffer.wrapVector impl cfg T v = IBuffer.wrapTyped impl cfg T v.data v.size v.capacity ∧
      IBuffer.wrapVector impl cfg T v
        = some (impl.wrap v.data (value.toDataType cfg) v.size v.capacity) ∧
      v.size ≤ v.capacity) := by
  refine ⟨by simp [IBuffer.wrapTyped, hT], ?_, ?_, ?_⟩
  · simp [IBuffer.wrapTyped, TRTDataType, TRTValue.toDataType, BufferDataType.toDataType]
  · intro h9 P w hP
    simp [IBuffer.wrapTyped, hP, TRTDataType_ptr_toDataType cfg h9 P w hP]
  · intro v
    exact ⟨rfl, by simp [IBuffer.wrapVector, IBuffer.wrapTyped, hT], v.size_le_capacity⟩

theorem wrapTyped_eq_wrap_witness :
    TRTDataType fullBuild (HostType.ptr HostType.float)
      = some (TRTValue.bufferDataType
          { mDataType := DataType.kFLOAT, mUnsigned := false, mPointer := true }) ∧
    IBuffer.wrapTyped (specMembers fullBuild (fun _ => MemoryType.kCPU)) fullBuild
        (HostType.ptr HostType.float) (some 4096) 8 8
      = some (Except.ok
          { data := some 4096, getSize := 8, getCapacity := 8,
            getDataType := DataType.kINT64, getMemoryType := MemoryType.kCPU }) :=
  ⟨rfl,
   (wrapTyped_eq_wrap (specMembers fullBuild (fun _ => MemoryType.kCPU)) fullBuild
      (HostType.ptr HostType.float) _ (some 4096) 8 8 rfl).1.trans rfl⟩

end tensorrt_llm.runtime
